import Mathlib

/-!
Shallow embedding of the DMCA takedown API (`src/app/api/dmca/route.ts`).

The route module consists of:
* an in-memory fixed-window rate limiter (`checkRateLimit`, keyed by IP);
* a `POST` handler: rate limit, JSON parse, zod validation, target link
  resolution (by explicit id via `findUnique`, else by normalized URL via
  `findFirst` filtered on `deleted_at: null`), creation of a `dmcaRequest`
  record in status `pending`, and — when a target was resolved — a Prisma
  interactive transaction that soft-deletes the link and appends one
  `linkSubmissionAudit` entry, followed by advancing the claim to
  `processing`;
* a `GET` handler looking a claim up by id and requester contact.

Timestamps are naturals (milliseconds), ids are naturals (standing for
uuids), statuses and actions are the string literals the code uses.
Database state is explicit: lists of rows plus id counters.  Prisma's
interactive `$transaction` is all-or-nothing; a store failure inside it is
modelled by a Boolean `txOk` parameter — when `false` the transaction's
writes are rolled back (the state is left as it was before the transaction)
and control transfers to the route's `catch` handler, as the thrown
rejection does in the code.
-/

/-- One row of the `chapterLink` catalog table, with the columns the DMCA
route reads or writes (`id`, `series_id`, `url`, `url_normalized`,
`status`, `deleted_at`, `submitted_by`). -/
structure LinkRec where
  id : Nat
  series_id : Nat
  url : String
  url_normalized : String
  status : String
  deleted_at : Option Nat
  submitted_by : Option Nat
deriving Repr, DecidableEq

/-- One row of the `dmcaRequest` table, as created and updated by the
route (`status ∈ {pending, processing, resolved, rejected}`). -/
structure ClaimRec where
  id : Nat
  requester_contact : String
  requester_name : Option String
  requester_company : Option String
  target_url : Option String
  target_link_id : Option Nat
  target_series_id : Option Nat
  work_title : String
  claim_details : String
  status : String
  created_at : Nat
  resolved_at : Option Nat
  resolution_note : Option String
deriving Repr, DecidableEq

/-- One row of the append-only `linkSubmissionAudit` table.  The JSON
`payload` column is flattened into its four fields
(`dmca_request_id`, `requester_contact`, `work_title`, `reason`). -/
structure AuditRec where
  id : Nat
  chapter_link_id : Nat
  action : String
  actor_ip : String
  payload_dmca_request_id : Nat
  payload_requester_contact : String
  payload_work_title : String
  payload_reason : String
deriving Repr, DecidableEq

/-- The persistent state the route touches: links, claims, audit log, and
fresh-id counters for the rows the route itself creates. -/
structure DB where
  links : List LinkRec
  claims : List ClaimRec
  audits : List AuditRec
  nextClaimId : Nat
  nextAuditId : Nat
deriving Repr, DecidableEq

/-! ## URL normalization

`data.target_url.toLowerCase().trim().replace(/^https?:\/\//, '').replace(/\/+$/, '')`
(route.ts lines 104–106): lowercase, then trim surrounding whitespace, then
strip one leading `http://` or `https://`, then strip all trailing
slashes. -/

/-- Strip a single leading `https://` or `http://`, the effect of
`.replace(/^https?:\/\//, '')` on a character list. -/
def stripHttpScheme (l : List Char) : List Char :=
  if l.take 8 = "https://".data then l.drop 8
  else if l.take 7 = "http://".data then l.drop 7
  else l

/-- Drop every trailing `/`, the effect of `.replace(/\/+$/, '')`. -/
def dropTrailingSlashes (l : List Char) : List Char :=
  (l.reverse.dropWhile (fun c => c = '/')).reverse

/-- Trim surrounding whitespace, the effect of `.trim()`. -/
def trimWs (l : List Char) : List Char :=
  ((l.dropWhile Char.isWhitespace).reverse.dropWhile Char.isWhitespace).reverse

/-- The URL normalization of route.ts lines 104–106. -/
def normalizeUrl (s : String) : String :=
  String.mk (dropTrailingSlashes (stripHttpScheme (trimWs (s.data.map Char.toLower))))

/-! ## Rate limiter (route.ts lines 41–61) -/

/-- An entry of `rateLimitMap`: `{ count, resetAt }`. -/
structure RateRecord where
  count : Nat
  resetAt : Nat
deriving Repr, DecidableEq

/-- `RATE_LIMIT_MAX = 5`. -/
def RATE_LIMIT_MAX : Nat := 5

/-- `RATE_LIMIT_WINDOW = 3600000` (one hour in milliseconds). -/
def RATE_LIMIT_WINDOW : Nat := 3600000

/-- The in-memory `rateLimitMap`, as an association list keyed by IP. -/
abbrev RateMap := List (String × RateRecord)

/-- `rateLimitMap.get(ip)`. -/
def rlGet (m : RateMap) (ip : String) : Option RateRecord :=
  (m.find? (fun p => p.1 = ip)).map (fun p => p.2)

/-- `rateLimitMap.set(ip, r)` (also covers the in-place `record.count++`:
both store `r` as the record now associated with `ip`). -/
def rlSet (m : RateMap) (ip : String) (r : RateRecord) : RateMap :=
  match m with
  | [] => [(ip, r)]
  | (k, v) :: rest => if k = ip then (k, r) :: rest else (k, v) :: rlSet rest ip r

/-- `checkRateLimit` (route.ts lines 46–61), with the current time `now`
passed explicitly.  Returns the admission decision and the updated map. -/
def checkRateLimit (now : Nat) (ip : String) (m : RateMap) : Bool × RateMap :=
  match rlGet m ip with
  | none => (true, rlSet m ip ⟨1, now + RATE_LIMIT_WINDOW⟩)
  | some record =>
    if now > record.resetAt then (true, rlSet m ip ⟨1, now + RATE_LIMIT_WINDOW⟩)
    else if record.count ≥ RATE_LIMIT_MAX then (false, m)
    else (true, rlSet m ip ⟨record.count + 1, record.resetAt⟩)

/-! ## Request body and validation (zod schema, route.ts lines 21–39)

The zod predicates on external string formats (`z.string().email()`,
`z.string().url()`) are library code; they are abstracted here by simple
executable checks (`isEmailLike`, `isUrlLike`).  No claim depends on their
exact regexes: validity of the body only ever appears as a hypothesis. -/

/-- A parsed JSON body with the fields of `dmcaRequestSchema`.  Absent
optional fields are `none`; `target_link_id` is a uuid modelled as `Nat`. -/
structure DmcaBody where
  requester_contact : String
  requester_name : Option String
  requester_company : Option String
  target_url : Option String
  target_link_id : Option Nat
  work_title : String
  claim_details : String
  good_faith_statement : Bool
  accuracy_statement : Bool
deriving Repr, DecidableEq

/-- Abstraction of `z.string().email()`: one `@` with nonempty sides. -/
def isEmailLike (s : String) : Bool :=
  (s.data.filter (fun c => c = '@')).length = 1 &&
  !(s.data.head? = some '@') && !(s.data.getLast? = some '@')

/-- Abstraction of `z.string().url()`: an explicit scheme is present. -/
def isUrlLike (s : String) : Bool :=
  "http://".data.isPrefixOf s.data || "https://".data.isPrefixOf s.data

/-- `dmcaRequestSchema.safeParse(body).success` (route.ts lines 21–39):
email-shaped contact, optional name 1–200 and company ≤ 200 chars, optional
URL-shaped target, title 1–500 chars, details 20–5000 chars, both
compliance statements exactly `true`, and at least one of
`target_url` / `target_link_id` present. -/
def dmcaValidate (b : DmcaBody) : Bool :=
  isEmailLike b.requester_contact &&
  (match b.requester_name with
   | none => true
   | some s => decide (1 ≤ s.length) && decide (s.length ≤ 200)) &&
  (match b.requester_company with
   | none => true
   | some s => decide (s.length ≤ 200)) &&
  (match b.target_url with
   | none => true
   | some s => isUrlLike s) &&
  decide (1 ≤ b.work_title.length) && decide (b.work_title.length ≤ 500) &&
  decide (20 ≤ b.claim_details.length) && decide (b.claim_details.length ≤ 5000) &&
  b.good_faith_statement && b.accuracy_statement &&
  (b.target_url.isSome || b.target_link_id.isSome)

/-! ## Target resolution (route.ts lines 98–134) -/

/-- Target resolution: when `target_link_id` is supplied it wins and the
link is fetched by id alone (`findUnique`, no `deleted_at` filter,
route.ts lines 124–134); otherwise a supplied `target_url` is normalized
and the first non-deleted link with that `url_normalized` is taken
(`findFirst` with `deleted_at: null`, route.ts lines 108–119). -/
def resolveTarget (data : DmcaBody) (db : DB) : Option LinkRec :=
  match data.target_link_id with
  | some tid => db.links.find? (fun l => decide (l.id = tid))
  | none =>
    match data.target_url with
    | some u =>
      db.links.find? (fun l =>
        decide (l.url_normalized = normalizeUrl u) && decide (l.deleted_at = none))
    | none => none

/-- The `target_link_id` column stored on the new claim (route.ts lines
99, 121–123, 143): the explicitly supplied id if any — kept even when
`findUnique` found nothing — else the id of the link resolved by URL. -/
def storedTargetLinkId (data : DmcaBody) (target : Option LinkRec) : Option Nat :=
  match data.target_link_id with
  | some tid => some tid
  | none => target.map (fun l => l.id)

/-- The `dmcaRequest` row created at route.ts lines 137–149: all submitted
fields, `target_series_id` from the resolved link if any, status
`pending`. -/
def mkClaim (data : DmcaBody) (db : DB) (now : Nat) (target : Option LinkRec) : ClaimRec :=
  { id := db.nextClaimId
  , requester_contact := data.requester_contact
  , requester_name := data.requester_name
  , requester_company := data.requester_company
  , target_url := data.target_url
  , target_link_id := storedTargetLinkId data target
  , target_series_id := target.map (fun l => l.series_id)
  , work_title := data.work_title
  , claim_details := data.claim_details
  , status := "pending"
  , created_at := now
  , resolved_at := none
  , resolution_note := none }

/-- Persist a freshly created claim row and advance the id counter. -/
def insertClaim (db : DB) (c : ClaimRec) : DB :=
  { db with claims := db.claims ++ [c], nextClaimId := db.nextClaimId + 1 }

/-- The body of the removal transaction (route.ts lines 153–177): soft
delete the target link (`status = removed`, `deleted_at = now`) and append
one `dmca_remove` audit entry carrying the claim id, requester contact,
work title and fixed reason. -/
def applyRemoval (db : DB) (tl : LinkRec) (claimId : Nat) (data : DmcaBody)
    (ip : String) (now : Nat) : DB :=
  { db with
    links := db.links.map (fun l =>
      if l.id = tl.id then { l with status := "removed", deleted_at := some now } else l)
  , audits := db.audits ++
      [{ id := db.nextAuditId
       , chapter_link_id := tl.id
       , action := "dmca_remove"
       , actor_ip := ip
       , payload_dmca_request_id := claimId
       , payload_requester_contact := data.requester_contact
       , payload_work_title := data.work_title
       , payload_reason := "DMCA takedown request" }]
  , nextAuditId := db.nextAuditId + 1 }

/-- The post-transaction claim update (route.ts lines 180–183): set the
claim's status to `processing`. -/
def markProcessing (db : DB) (claimId : Nat) : DB :=
  { db with claims := db.claims.map (fun c =>
      if c.id = claimId then { c with status := "processing" } else c) }

/-- The responses the `POST` handler can return: 429 rate-limit denial,
400 validation failure, 201 created (with `request_id` and
`link_removed`), and the 500 produced by the `catch` block. -/
inductive PostResponse where
  | rateLimited
  | validationFailed
  | created (request_id : Nat) (link_removed : Bool)
  | serverError
deriving Repr, DecidableEq

/-- Result of one `POST` call: the HTTP response, the database afterwards,
and the rate-limit map afterwards. -/
structure PostResult where
  resp : PostResponse
  db : DB
  rl : RateMap
deriving Repr, DecidableEq

/-- The `POST` handler (route.ts lines 63–204).  `body = none` models a
request whose `request.json()` rejects (unparseable body): the rejection
is raised inside the `try`, before validation, and lands in the `catch`.
`txOk = false` models the interactive transaction failing: Prisma rolls
its writes back atomically, so the database keeps its pre-transaction
value, and the rejection again lands in the `catch`. -/
def POST (ip : String) (now : Nat) (body : Option DmcaBody) (txOk : Bool)
    (rl : RateMap) (db : DB) : PostResult :=
  let p := checkRateLimit now ip rl
  if p.1 then
    match body with
    | none => ⟨PostResponse.serverError, db, p.2⟩
    | some data =>
      if dmcaValidate data then
        let target := resolveTarget data db
        let claim := mkClaim data db now target
        let db1 := insertClaim db claim
        match target with
        | none => ⟨PostResponse.created claim.id false, db1, p.2⟩
        | some tl =>
          if txOk then
            let db2 := applyRemoval db1 tl claim.id data ip now
            let db3 := markProcessing db2 claim.id
            ⟨PostResponse.created claim.id true, db3, p.2⟩
          else ⟨PostResponse.serverError, db1, p.2⟩
      else ⟨PostResponse.validationFailed, db, p.2⟩
  else ⟨PostResponse.rateLimited, db, p.2⟩

/-! ## GET handler (route.ts lines 207–254) -/

/-- The public view of a claim returned by `GET` (route.ts lines 225–233). -/
structure PublicView where
  id : Nat
  status : String
  work_title : String
  target_url : Option String
  created_at : Nat
  resolved_at : Option Nat
  resolution_note : Option String
deriving Repr, DecidableEq

/-- The responses of the `GET` handler, each carrying its HTTP status code
and (for errors) the body's error string. -/
inductive GetResponse where
  | badRequest (code : Nat) (body : String)
  | notFound (code : Nat) (body : String)
  | ok (request : PublicView)
deriving Repr, DecidableEq

/-- The `GET` handler: 400 when `id` or `email` is missing; otherwise
`findFirst` on `id = requestId AND requester_contact = email`; one shared
404 branch (route.ts lines 236–241) whether the id does not exist or the
contact does not match. -/
def GETstatus (requestId : Option Nat) (email : Option String) (db : DB) : GetResponse :=
  match requestId, email with
  | some rid, some em =>
    match db.claims.find? (fun c =>
        decide (c.id = rid) && decide (c.requester_contact = em)) with
    | none => GetResponse.notFound 404 "Request not found or email does not match"
    | some c => GetResponse.ok
        ⟨c.id, c.status, c.work_title, c.target_url, c.created_at, c.resolved_at,
         c.resolution_note⟩
  | _, _ => GetResponse.badRequest 400 "Missing required parameters: id and email"

/-- Run `checkRateLimit` once per timestamp in `ts` (same key), threading
the map; returns the decisions in order and the final map. -/
def runRL (ts : List Nat) (ip : String) (m : RateMap) : List Bool × RateMap :=
  match ts with
  | [] => ([], m)
  | t :: rest =>
    let r := checkRateLimit t ip m
    let rr := runRL rest ip r.2
    (r.1 :: rr.1, rr.2)

/-- `count ≤ RATE_LIMIT_MAX` for every record of a rate-limit map. -/
abbrev rlCountsOk (m : RateMap) : Prop :=
  ∀ p ∈ m, p.2.count ≤ RATE_LIMIT_MAX

/-! ## Rate limiter lemmas -/

theorem rlGet_rlSet (m : RateMap) (ip : String) (r : RateRecord) :
    rlGet (rlSet m ip r) ip = some r := by
  induction m with
  | nil => simp [rlGet, rlSet]
  | cons p rest ih =>
    obtain ⟨k, v⟩ := p
    by_cases h : k = ip
    · simp [rlSet, h, rlGet]
    · simp only [rlSet, if_neg h]
      simp only [rlGet, List.find?] at ih ⊢
      simp [h, ih]

theorem mem_rlSet (m : RateMap) (ip : String) (r : RateRecord)
    (q : String × RateRecord) (hq : q ∈ rlSet m ip r) : q = (ip, r) ∨ q ∈ m := by
  induction m with
  | nil =>
    simp [rlSet] at hq
    exact Or.inl hq
  | cons p rest ih =>
    obtain ⟨k, v⟩ := p
    by_cases h : k = ip
    · simp only [rlSet, if_pos h, List.mem_cons] at hq
      rcases hq with h1 | h2
      · exact Or.inl (by simp [h1, h])
      · exact Or.inr (List.mem_cons_of_mem _ h2)
    · simp only [rlSet, if_neg h, List.mem_cons] at hq
      rcases hq with h1 | h2
      · exact Or.inr (by simp [h1])
      · rcases ih h2 with a | b
        · exact Or.inl a
        · exact Or.inr (List.mem_cons_of_mem _ b)

theorem checkRateLimit_reset (now : Nat) (ip : String) (m : RateMap)
    (h : rlGet m ip = none ∨ ∃ r, rlGet m ip = some r ∧ r.resetAt < now) :
    checkRateLimit now ip m = (true, rlSet m ip ⟨1, now + RATE_LIMIT_WINDOW⟩) := by
  rcases h with h | ⟨r, hr, hlt⟩
  · simp [checkRateLimit, h]
  · simp [checkRateLimit, hr, hlt]

theorem checkRateLimit_increment (now : Nat) (ip : String) (m : RateMap)
    (k R : Nat) (hget : rlGet m ip = some ⟨k, R⟩) (hwin : now ≤ R)
    (hk : k < RATE_LIMIT_MAX) :
    checkRateLimit now ip m = (true, rlSet m ip ⟨k + 1, R⟩) := by
  have h1 : ¬ R < now := by omega
  have h2 : ¬ k ≥ RATE_LIMIT_MAX := by omega
  simp [checkRateLimit, hget, h1, h2]

theorem checkRateLimit_deny (now : Nat) (ip : String) (m : RateMap)
    (k R : Nat) (hget : rlGet m ip = some ⟨k, R⟩) (hwin : now ≤ R)
    (hk : RATE_LIMIT_MAX ≤ k) :
    checkRateLimit now ip m = (false, m) := by
  have h1 : ¬ R < now := by omega
  simp [checkRateLimit, hget, h1, hk]

theorem runRL_cons (t : Nat) (ts : List Nat) (ip : String) (m : RateMap) :
    runRL (t :: ts) ip m =
      ((checkRateLimit t ip m).1 :: (runRL ts ip (checkRateLimit t ip m).2).1,
       (runRL ts ip (checkRateLimit t ip m).2).2) := rfl

/-- C4: for every key, the rate limiter admits exactly `M = 5` submissions
within one fixed window and denies the sixth call in the same window; when
no record exists for the key, or the record's window has elapsed
(`now > resetAt`), the stored count resets to 1, the stored window covers
`now` to `now + RATE_LIMIT_WINDOW` (window start = now), and the call is
admitted. -/
theorem checkRateLimit_window_spec (ip : String) (m mFresh mElapsed : RateMap)
    (nowF nowE : Nat) (rE : RateRecord) (t1 t2 t3 t4 t5 t6 : Nat)
    (hFresh : rlGet mFresh ip = none)
    (hE : rlGet mElapsed ip = some rE) (hElapsed : rE.resetAt < nowE)
    (hm : rlGet m ip = none)
    (h2 : t2 ≤ t1 + RATE_LIMIT_WINDOW) (h3 : t3 ≤ t1 + RATE_LIMIT_WINDOW)
    (h4 : t4 ≤ t1 + RATE_LIMIT_WINDOW) (h5 : t5 ≤ t1 + RATE_LIMIT_WINDOW)
    (h6 : t6 ≤ t1 + RATE_LIMIT_WINDOW) :
    checkRateLimit nowF ip mFresh = (true, rlSet mFresh ip ⟨1, nowF + RATE_LIMIT_WINDOW⟩)
    ∧ checkRateLimit nowE ip mElapsed
        = (true, rlSet mElapsed ip ⟨1, nowE + RATE_LIMIT_WINDOW⟩)
    ∧ (runRL [t1, t2, t3, t4, t5, t6] ip m).1
        = [true, true, true, true, true, false] := by
  refine ⟨checkRateLimit_reset nowF ip mFresh (Or.inl hFresh),
          checkRateLimit_reset nowE ip mElapsed (Or.inr ⟨rE, hE, hElapsed⟩), ?_⟩
  have e1 : checkRateLimit t1 ip m = (true, rlSet m ip ⟨1, t1 + RATE_LIMIT_WINDOW⟩) :=
    checkRateLimit_reset t1 ip m (Or.inl hm)
  have e2 := checkRateLimit_increment t2 ip
    (rlSet m ip ⟨1, t1 + RATE_LIMIT_WINDOW⟩) 1 (t1 + RATE_LIMIT_WINDOW)
    (rlGet_rlSet _ _ _) h2 (by decide)
  have e3 := checkRateLimit_increment t3 ip
    (rlSet (rlSet m ip ⟨1, t1 + RATE_LIMIT_WINDOW⟩) ip ⟨2, t1 + RATE_LIMIT_WINDOW⟩)
    2 (t1 + RATE_LIMIT_WINDOW) (rlGet_rlSet _ _ _) h3 (by decide)
  have e4 := checkRateLimit_increment t4 ip
    (rlSet (rlSet (rlSet m ip ⟨1, t1 + RATE_LIMIT_WINDOW⟩) ip ⟨2, t1 + RATE_LIMIT_WINDOW⟩)
      ip ⟨3, t1 + RATE_LIMIT_WINDOW⟩)
    3 (t1 + RATE_LIMIT_WINDOW) (rlGet_rlSet _ _ _) h4 (by decide)
  have e5 := checkRateLimit_increment t5 ip
    (rlSet (rlSet (rlSet (rlSet m ip ⟨1, t1 + RATE_LIMIT_WINDOW⟩) ip
      ⟨2, t1 + RATE_LIMIT_WINDOW⟩) ip ⟨3, t1 + RATE_LIMIT_WINDOW⟩) ip
      ⟨4, t1 + RATE_LIMIT_WINDOW⟩)
    4 (t1 + RATE_LIMIT_WINDOW) (rlGet_rlSet _ _ _) h5 (by decide)
  have e6 := checkRateLimit_deny t6 ip
    (rlSet (rlSet (rlSet (rlSet (rlSet m ip ⟨1, t1 + RATE_LIMIT_WINDOW⟩) ip
      ⟨2, t1 + RATE_LIMIT_WINDOW⟩) ip ⟨3, t1 + RATE_LIMIT_WINDOW⟩) ip
      ⟨4, t1 + RATE_LIMIT_WINDOW⟩) ip ⟨5, t1 + RATE_LIMIT_WINDOW⟩)
    5 (t1 + RATE_LIMIT_WINDOW) (rlGet_rlSet _ _ _) h6 (by decide)
  simp [runRL_cons, runRL, e1, e2, e3, e4, e5, e6]

/-- Witness for C4: a fresh key, an elapsed record, and six calls inside
one window at concrete times. -/
theorem checkRateLimit_window_spec_witness :
    checkRateLimit 10 "a" [] = (true, rlSet [] "a" ⟨1, 10 + RATE_LIMIT_WINDOW⟩)
    ∧ checkRateLimit 4000000 "a" [("a", ⟨5, 3600000⟩)]
        = (true, rlSet [("a", ⟨5, 3600000⟩)] "a" ⟨1, 4000000 + RATE_LIMIT_WINDOW⟩)
    ∧ (runRL [10, 20, 30, 40, 50, 60] "a" []).1
        = [true, true, true, true, true, false] :=
  checkRateLimit_window_spec "a" [] [] [("a", ⟨5, 3600000⟩)] 10 4000000
    ⟨5, 3600000⟩ 10 20 30 40 50 60 (by decide) (by decide) (by decide) (by decide)
    (by decide) (by decide) (by decide) (by decide) (by decide)

/-- C9: for every key, the stored per-key count never exceeds
`RATE_LIMIT_MAX = 5`: `checkRateLimit` either resets a count to 1 or
increments it only under the guard `count < RATE_LIMIT_MAX`, so
`count ≤ RATE_LIMIT_MAX` is an invariant of the rate-limit map preserved
by every call. -/
theorem rate_count_le_max (now : Nat) (ip : String) (m : RateMap)
    (h : rlCountsOk m) : rlCountsOk (checkRateLimit now ip m).2 := by
  have hset : ∀ (w : String) (r : RateRecord), r.count ≤ RATE_LIMIT_MAX →
      rlCountsOk (rlSet m w r) := by
    intro w r hr q hq
    rcases mem_rlSet m w r q hq with rfl | hqm
    · exact hr
    · exact h q hqm
  cases hget : rlGet m ip with
  | none =>
    rw [checkRateLimit_reset now ip m (Or.inl hget)]
    exact hset ip ⟨1, now + RATE_LIMIT_WINDOW⟩ (by show (1 : Nat) ≤ RATE_LIMIT_MAX; decide)
  | some r =>
    by_cases hw : r.resetAt < now
    · rw [checkRateLimit_reset now ip m (Or.inr ⟨r, hget, hw⟩)]
      exact hset ip ⟨1, now + RATE_LIMIT_WINDOW⟩ (by show (1 : Nat) ≤ RATE_LIMIT_MAX; decide)
    · by_cases hc : RATE_LIMIT_MAX ≤ r.count
      · rw [checkRateLimit_deny now ip m r.count r.resetAt hget (by omega) hc]
        exact h
      · rw [checkRateLimit_increment now ip m r.count r.resetAt hget (by omega) (by omega)]
        exact hset ip ⟨r.count + 1, r.resetAt⟩ (by show r.count + 1 ≤ RATE_LIMIT_MAX; omega)

/-- Witness for C9 on a concrete map with a mid-window record. -/
theorem rate_count_le_max_witness :
    rlCountsOk (checkRateLimit 10 "a" [("a", ⟨3, 100⟩), ("b", ⟨5, 900⟩)]).2 :=
  rate_count_le_max 10 "a" [("a", ⟨3, 100⟩), ("b", ⟨5, 900⟩)] (by decide)

/-! ## Target resolution lemmas -/

theorem resolveTarget_mem (data : DmcaBody) (db : DB) (tl : LinkRec)
    (h : resolveTarget data db = some tl) : tl ∈ db.links := by
  rcases hT : data.target_link_id with _ | tid
  · rcases hU : data.target_url with _ | u
    · simp [resolveTarget, hT, hU] at h
    · simp only [resolveTarget, hT, hU] at h
      exact List.mem_of_find?_eq_some h
  · simp only [resolveTarget, hT] at h
    exact List.mem_of_find?_eq_some h

/-! ## Claim theorems for the POST pipeline -/

/-- C8: the URL normalization lowercases, trims surrounding whitespace,
strips a leading `http://` or `https://`, and strips trailing slashes; in
particular `"HTTPS://Example.com/Path/"` and `"example.com/path"`
normalize to the same value. -/
theorem normalizeUrl_spec :
    normalizeUrl "HTTPS://Example.com/Path/" = normalizeUrl "example.com/path"
    ∧ normalizeUrl "HTTPS://Example.com/Path/" = "example.com/path"
    ∧ normalizeUrl "  MixedCase.COM  " = "mixedcase.com"
    ∧ normalizeUrl "http://site.org" = "site.org"
    ∧ normalizeUrl "https://site.org" = "site.org"
    ∧ normalizeUrl "site.org/a///" = "site.org/a" := by
  decide

/-- C10: an admitted request whose body is not parseable as JSON gets the
generic 500 response, never the 400 validation response: the parse happens
inside the `try` before schema validation, so its rejection is caught by
the catch-all handler. -/
theorem unparseable_body_is_server_error (ip : String) (now : Nat) (txOk : Bool)
    (rl : RateMap) (db : DB)
    (hrl : (checkRateLimit now ip rl).1 = true) :
    (POST ip now none txOk rl db).resp = PostResponse.serverError
    ∧ (POST ip now none txOk rl db).resp ≠ PostResponse.validationFailed := by
  constructor <;> simp [POST, hrl]

/-- Witness for C10: an unparseable body on a fresh rate-limit map. -/
theorem unparseable_body_is_server_error_witness :
    (POST "1.1.1.1" 5 none true [] ⟨[], [], [], 0, 0⟩).resp = PostResponse.serverError
    ∧ (POST "1.1.1.1" 5 none true [] ⟨[], [], [], 0, 0⟩).resp
        ≠ PostResponse.validationFailed :=
  unparseable_body_is_server_error "1.1.1.1" 5 true [] ⟨[], [], [], 0, 0⟩ (by decide)

/-- C2: when the removal transaction fails, its two halves abort together:
the links and the audit log are exactly as before the attempt, the claim
record created before the transaction is persisted with status `pending`,
and the caller receives the generic 500 response. -/
theorem removal_tx_failure_atomic (ip : String) (now : Nat) (data : DmcaBody)
    (rl : RateMap) (db : DB) (tl : LinkRec)
    (hrl : (checkRateLimit now ip rl).1 = true)
    (hv : dmcaValidate data = true)
    (hres : resolveTarget data db = some tl) :
    (POST ip now (some data) false rl db).resp = PostResponse.serverError
    ∧ (POST ip now (some data) false rl db).db.links = db.links
    ∧ (POST ip now (some data) false rl db).db.audits = db.audits
    ∧ (POST ip now (some data) false rl db).db.claims
        = db.claims ++ [mkClaim data db now (some tl)]
    ∧ (mkClaim data db now (some tl)).status = "pending" := by
  refine ⟨?_, ?_, ?_, ?_, rfl⟩ <;> simp [POST, hrl, hv, hres, insertClaim]

/-- C7: when the target does not resolve, the link store is untouched, no
audit entry is appended, the created claim stays `pending`, and the 201
response reports `link_removed = false`. -/
theorem unresolved_target_untouched (ip : String) (now : Nat) (data : DmcaBody)
    (txOk : Bool) (rl : RateMap) (db : DB)
    (hrl : (checkRateLimit now ip rl).1 = true)
    (hv : dmcaValidate data = true)
    (hres : resolveTarget data db = none) :
    (POST ip now (some data) txOk rl db).resp
        = PostResponse.created db.nextClaimId false
    ∧ (POST ip now (some data) txOk rl db).db.links = db.links
    ∧ (POST ip now (some data) txOk rl db).db.audits = db.audits
    ∧ (POST ip now (some data) txOk rl db).db.claims
        = db.claims ++ [mkClaim data db now none]
    ∧ (mkClaim data db now none).status = "pending" := by
  refine ⟨?_, ?_, ?_, ?_, rfl⟩ <;> simp [POST, hrl, hv, hres, insertClaim, mkClaim]

/-- A catalog link used by concrete witnesses: active, not deleted. -/
def wLink : LinkRec :=
  { id := 7, series_id := 3, url := "https://example.com/ch/1"
  , url_normalized := "example.com/ch/1", status := "active"
  , deleted_at := none, submitted_by := none }

/-- A valid submission targeting `wLink` by raw URL. -/
def wBody : DmcaBody :=
  { requester_contact := "a@x.com", requester_name := none
  , requester_company := none, target_url := some "https://Example.com/ch/1/"
  , target_link_id := none, work_title := "Book"
  , claim_details := "This work infringes my copyright in Book."
  , good_faith_statement := true, accuracy_statement := true }

/-- A catalog with `wLink` and empty claim/audit tables. -/
def wDB : DB := { links := [wLink], claims := [], audits := [], nextClaimId := 10, nextAuditId := 20 }

/-- Witness for C2: the transaction fails against the concrete catalog. -/
theorem removal_tx_failure_atomic_witness :
    (POST "1.1.1.1" 500 (some wBody) false [] wDB).resp = PostResponse.serverError
    ∧ (POST "1.1.1.1" 500 (some wBody) false [] wDB).db.links = wDB.links
    ∧ (POST "1.1.1.1" 500 (some wBody) false [] wDB).db.audits = wDB.audits
    ∧ (POST "1.1.1.1" 500 (some wBody) false [] wDB).db.claims
        = wDB.claims ++ [mkClaim wBody wDB 500 (some wLink)]
    ∧ (mkClaim wBody wDB 500 (some wLink)).status = "pending" :=
  removal_tx_failure_atomic "1.1.1.1" 500 wBody [] wDB wLink
    (by decide) (by decide) (by decide)

/-- A valid submission whose URL matches no stored link. -/
def w7Body : DmcaBody :=
  { requester_contact := "a@x.com", requester_name := none
  , requester_company := none, target_url := some "https://other.com/ch/9"
  , target_link_id := none, work_title := "Book"
  , claim_details := "This work infringes my copyright in Book."
  , good_faith_statement := true, accuracy_statement := true }

/-- Witness for C7: an unresolved target against the concrete catalog. -/
theorem unresolved_target_untouched_witness :
    (POST "1.1.1.1" 500 (some w7Body) true [] wDB).resp
        = PostResponse.created wDB.nextClaimId false
    ∧ (POST "1.1.1.1" 500 (some w7Body) true [] wDB).db.links = wDB.links
    ∧ (POST "1.1.1.1" 500 (some w7Body) true [] wDB).db.audits = wDB.audits
    ∧ (POST "1.1.1.1" 500 (some w7Body) true [] wDB).db.claims
        = wDB.claims ++ [mkClaim w7Body wDB 500 none]
    ∧ (mkClaim w7Body wDB 500 none).status = "pending" :=
  unresolved_target_untouched "1.1.1.1" 500 w7Body true [] wDB
    (by decide) (by decide) (by decide)

/-- C3: for a valid, admitted submission whose target resolves, and a
fresh claim id (no prior audit entry mentions it), the pipeline leaves the
target link `removed` with deletion timestamp `now`, exactly one
`dmca_remove` audit entry referencing both the link id and the new claim
id, the claim advanced to `processing`, and a 201 reporting
`link_removed = true`. -/
theorem resolved_target_postconditions (ip : String) (now : Nat) (data : DmcaBody)
    (rl : RateMap) (db : DB) (tl : LinkRec)
    (hrl : (checkRateLimit now ip rl).1 = true)
    (hv : dmcaValidate data = true)
    (hres : resolveTarget data db = some tl)
    (haud : ∀ a ∈ db.audits, a.payload_dmca_request_id ≠ db.nextClaimId) :
    (POST ip now (some data) true rl db).resp
        = PostResponse.created db.nextClaimId true
    ∧ (∀ l ∈ (POST ip now (some data) true rl db).db.links,
        l.id = tl.id → l.status = "removed" ∧ l.deleted_at = some now)
    ∧ (∃ l ∈ (POST ip now (some data) true rl db).db.links, l.id = tl.id)
    ∧ ((POST ip now (some data) true rl db).db.audits.filter (fun a =>
        decide (a.action = "dmca_remove") && decide (a.chapter_link_id = tl.id)
          && decide (a.payload_dmca_request_id = db.nextClaimId))).length = 1
    ∧ (∀ c ∈ (POST ip now (some data) true rl db).db.claims,
        c.id = db.nextClaimId → c.status = "processing")
    ∧ (∃ c ∈ (POST ip now (some data) true rl db).db.claims,
        c.id = db.nextClaimId) := by
  have hdb : (POST ip now (some data) true rl db).db
      = markProcessing (applyRemoval (insertClaim db (mkClaim data db now (some tl)))
          tl db.nextClaimId data ip now) db.nextClaimId := by
    simp [POST, hrl, hv, hres, mkClaim]
  have hlinks : (POST ip now (some data) true rl db).db.links
      = db.links.map (fun l => if l.id = tl.id
          then { l with status := "removed", deleted_at := some now } else l) := by
    rw [hdb]; rfl
  have haudits : (POST ip now (some data) true rl db).db.audits
      = db.audits ++
        [{ id := db.nextAuditId, chapter_link_id := tl.id
         , action := "dmca_remove", actor_ip := ip
         , payload_dmca_request_id := db.nextClaimId
         , payload_requester_contact := data.requester_contact
         , payload_work_title := data.work_title
         , payload_reason := "DMCA takedown request" }] := by
    rw [hdb]; rfl
  have hclaims : (POST ip now (some data) true rl db).db.claims
      = (db.claims ++ [mkClaim data db now (some tl)]).map (fun c =>
          if c.id = db.nextClaimId then { c with status := "processing" } else c) := by
    rw [hdb]; rfl
  refine ⟨?_, ?_, ?_, ?_, ?_, ?_⟩
  · simp [POST, hrl, hv, hres, mkClaim]
  · rw [hlinks]
    intro l hl hid
    rcases List.mem_map.mp hl with ⟨l0, hl0, rfl⟩
    by_cases h0 : l0.id = tl.id
    · simp [h0]
    · simp only [if_neg h0] at hid ⊢
      exact absurd hid h0
  · rw [hlinks]
    refine ⟨_, List.mem_map_of_mem _ (resolveTarget_mem data db tl hres), ?_⟩
    simp
  · rw [haudits, List.filter_append]
    have h0 : (db.audits.filter (fun a =>
        decide (a.action = "dmca_remove") && decide (a.chapter_link_id = tl.id)
          && decide (a.payload_dmca_request_id = db.nextClaimId))) = [] := by
      rw [List.filter_eq_nil_iff]
      intro a ha
      simp [haud a ha]
    rw [h0]
    simp
  · rw [hclaims]
    intro c hc hid
    rcases List.mem_map.mp hc with ⟨c0, hc0, rfl⟩
    by_cases h0 : c0.id = db.nextClaimId
    · simp [h0]
    · simp only [if_neg h0] at hid ⊢
      exact absurd hid h0
  · rw [hclaims]
    refine ⟨_, List.mem_map_of_mem _
      (List.mem_append_right _ (List.mem_singleton_self _)), ?_⟩
    simp [mkClaim]

/-- Witness for C3: the concrete catalog `wDB`, submission `wBody`. -/
theorem resolved_target_postconditions_witness :
    (POST "1.1.1.1" 500 (some wBody) true [] wDB).resp
        = PostResponse.created wDB.nextClaimId true
    ∧ (∀ l ∈ (POST "1.1.1.1" 500 (some wBody) true [] wDB).db.links,
        l.id = wLink.id → l.status = "removed" ∧ l.deleted_at = some 500)
    ∧ (∃ l ∈ (POST "1.1.1.1" 500 (some wBody) true [] wDB).db.links,
        l.id = wLink.id)
    ∧ ((POST "1.1.1.1" 500 (some wBody) true [] wDB).db.audits.filter (fun a =>
        decide (a.action = "dmca_remove") && decide (a.chapter_link_id = wLink.id)
          && decide (a.payload_dmca_request_id = wDB.nextClaimId))).length = 1
    ∧ (∀ c ∈ (POST "1.1.1.1" 500 (some wBody) true [] wDB).db.claims,
        c.id = wDB.nextClaimId → c.status = "processing")
    ∧ (∃ c ∈ (POST "1.1.1.1" 500 (some wBody) true [] wDB).db.claims,
        c.id = wDB.nextClaimId) :=
  resolved_target_postconditions "1.1.1.1" 500 wBody [] wDB wLink
    (by decide) (by decide) (by decide) (by decide)

/-- C6: the status lookup returns the identical 404 response (same status
code and body) when no claim with the queried id exists and when the claim
exists but its stored contact differs, so a caller cannot distinguish a
wrong contact from a nonexistent claim. -/
theorem status_lookup_indistinguishable (db1 db2 : DB) (rid1 rid2 : Nat)
    (em1 em2 : String)
    (h1 : ∀ c ∈ db1.claims, ¬(c.id = rid1 ∧ c.requester_contact = em1))
    (h2 : ∀ c ∈ db2.claims, ¬(c.id = rid2 ∧ c.requester_contact = em2)) :
    GETstatus (some rid1) (some em1) db1
        = GetResponse.notFound 404 "Request not found or email does not match"
    ∧ GETstatus (some rid2) (some em2) db2
        = GetResponse.notFound 404 "Request not found or email does not match"
    ∧ GETstatus (some rid1) (some em1) db1 = GETstatus (some rid2) (some em2) db2 := by
  have f1 : db1.claims.find? (fun c =>
      decide (c.id = rid1) && decide (c.requester_contact = em1)) = none := by
    rw [List.find?_eq_none]
    intro c hc hp
    rw [Bool.and_eq_true, decide_eq_true_eq, decide_eq_true_eq] at hp
    exact h1 c hc hp
  have f2 : db2.claims.find? (fun c =>
      decide (c.id = rid2) && decide (c.requester_contact = em2)) = none := by
    rw [List.find?_eq_none]
    intro c hc hp
    rw [Bool.and_eq_true, decide_eq_true_eq, decide_eq_true_eq] at hp
    exact h2 c hc hp
  refine ⟨?_, ?_, ?_⟩ <;> simp [GETstatus, f1, f2]

/-- A stored claim used by the C6 witness. -/
def w6Claim : ClaimRec :=
  { id := 4, requester_contact := "owner@x.com", requester_name := none
  , requester_company := none, target_url := some "https://example.com/ch/1"
  , target_link_id := some 7, target_series_id := some 3, work_title := "Book"
  , claim_details := "This work infringes my copyright in Book."
  , status := "pending", created_at := 100, resolved_at := none
  , resolution_note := none }

/-- Witness for C6: wrong contact for an existing claim in one store,
nonexistent id in another; the two responses coincide. -/
theorem status_lookup_indistinguishable_witness :
    GETstatus (some 4) (some "intruder@x.com") ⟨[], [w6Claim], [], 5, 0⟩
        = GetResponse.notFound 404 "Request not found or email does not match"
    ∧ GETstatus (some 99) (some "owner@x.com") ⟨[], [w6Claim], [], 5, 0⟩
        = GetResponse.notFound 404 "Request not found or email does not match"
    ∧ GETstatus (some 4) (some "intruder@x.com") ⟨[], [w6Claim], [], 5, 0⟩
        = GETstatus (some 99) (some "owner@x.com") ⟨[], [w6Claim], [], 5, 0⟩ :=
  status_lookup_indistinguishable ⟨[], [w6Claim], [], 5, 0⟩ ⟨[], [w6Claim], [], 5, 0⟩
    4 99 "intruder@x.com" "owner@x.com" (by decide) (by decide)

/-- A link already taken down: status `removed`, deleted at time 100,
with its one existing `dmca_remove` audit entry recorded in `c1DB`. -/
def c1Link : LinkRec :=
  { id := 7, series_id := 3, url := "https://example.com/ch/1"
  , url_normalized := "example.com/ch/1", status := "removed"
  , deleted_at := some 100, submitted_by := none }

/-- The audit entry of `c1Link`'s earlier removal (claim id 0). -/
def c1Audit : AuditRec :=
  { id := 0, chapter_link_id := 7, action := "dmca_remove", actor_ip := "5.5.5.5"
  , payload_dmca_request_id := 0, payload_requester_contact := "owner@x.com"
  , payload_work_title := "Book", payload_reason := "DMCA takedown request" }

/-- A catalog in which link 7 is already removed and audited once. -/
def c1DB : DB :=
  { links := [c1Link], claims := [], audits := [c1Audit]
  , nextClaimId := 1, nextAuditId := 1 }

/-- A valid repeat submission naming the removed link by explicit
`target_link_id`. -/
def c1Body : DmcaBody :=
  { requester_contact := "b@y.com", requester_name := none
  , requester_company := none, target_url := none, target_link_id := some 7
  , work_title := "Book"
  , claim_details := "Second notice for the same infringing copy."
  , good_faith_statement := true, accuracy_statement := true }

/-- C1 fails on the code: running the pipeline against a link already in
`removed` status, resolved by explicit `target_link_id`, is not a no-op.
The `findUnique` id lookup has no `deleted_at` filter, so the removed link
resolves, the removal transaction runs again, `deleted_at` is overwritten
(100 becomes 200), and a second `dmca_remove` audit entry for the link is
appended (the count for link 7 goes from 1 to 2). -/
theorem removed_link_reprocessed_by_id :
    c1Link.status = "removed"
    ∧ (c1DB.audits.filter (fun a =>
        decide (a.action = "dmca_remove") && decide (a.chapter_link_id = 7))).length = 1
    ∧ ((POST "9.9.9.9" 200 (some c1Body) true [] c1DB).db.audits.filter (fun a =>
        decide (a.action = "dmca_remove") && decide (a.chapter_link_id = 7))).length = 2
    ∧ (∀ l ∈ (POST "9.9.9.9" 200 (some c1Body) true [] c1DB).db.links,
        l.id = 7 → l.deleted_at = some 200) := by
  decide
